import Mathlib

/-!
Verification development for the `app.py` conversational endpoint
(knowledge cache → web search → text generation, with a truncation
detection-and-repair heuristic on generated text).

Strings are modelled as `List Char`.  The Python character classes
(`str.strip` whitespace, the regex classes `\w`, `\d`, `[A-Za-z]`, and
`str.lower`) are modelled restricted to the Basic Latin, Latin-1 and
Latin Extended-A ranges, which cover every string constant the program
contains; characters outside those ranges are treated as non-word,
non-space and case-invariant.

The three outbound network calls (web search, primary generation, and
the targeted last-word completion) are modelled as oracle inputs to the
request handlers: the handler receives the text each call would return
(`Option` for the completion call, which can fail to yield anything).
-/

abbrev Str := List Char

/-- Whitespace removed by Python `str.strip` (restricted to the Latin-1 range). -/
def isPySpace (c : Char) : Bool :=
  c = ' ' || c = '\t' || c = '\n' || c = '\r' || c.val = 11 || c.val = 12 ||
  c.val = 0x1c || c.val = 0x1d || c.val = 0x1e || c.val = 0x1f ||
  c.val = 0x85 || c.val = 0xa0

/-- Decimal digits of the regex class `\d` (no extra decimal digits exist in
the modelled Latin ranges, so this is the ASCII digits). -/
def isPyDigit (c : Char) : Bool := decide ('0' ≤ c) && decide (c ≤ '9')

/-- The ASCII letter class `[A-Za-z]` used by the trailing-mix regex. -/
def isAsciiLetter (c : Char) : Bool :=
  (decide ('A' ≤ c) && decide (c ≤ 'Z')) || (decide ('a' ≤ c) && decide (c ≤ 'z'))

/-- Letters of the Latin-1 Supplement and Latin Extended-A blocks
(the non-ASCII letters the Unicode-aware `\w` accepts in the modelled range). -/
def isLatinExtraLetter (c : Char) : Bool :=
  c.val = 0xaa || c.val = 0xb5 || c.val = 0xba ||
  (0xc0 ≤ c.val && c.val ≤ 0xff && c.val ≠ 0xd7 && c.val ≠ 0xf7) ||
  (0x100 ≤ c.val && c.val ≤ 0x17f)

/-- Letters in the Unicode-aware sense of the tokenizer (restricted as above). -/
def isPyLetter (c : Char) : Bool := isAsciiLetter c || isLatinExtraLetter c

/-- The Latin-1 numeric characters `¹ ² ³ ¼ ½ ¾`: not decimal digits (`\d`
rejects them), but alphanumeric for Python, so the Unicode-aware `\w`
accepts them. -/
def isLatinNumeric (c : Char) : Bool :=
  c.val = 0xb2 || c.val = 0xb3 || c.val = 0xb9 ||
  c.val = 0xbc || c.val = 0xbd || c.val = 0xbe

/-- Word characters of the Unicode-aware regex class `\w` used by
`re.findall(r"\w+", ...)`: letters, decimal digits, the other numeric
characters of the modelled range, and the underscore. -/
def isPyWordChar (c : Char) : Bool :=
  isPyLetter c || isPyDigit c || isLatinNumeric c || c = '_'

/-- Python `str.lower` on one character, as a (possibly expanding) string:
ASCII and Latin-1 uppercase letters map by `+32`; in Latin Extended-A the
uppercase of each case pair maps to its partner (`Ā→ā`, `Œ→œ`, `Š→š`, …),
`Ÿ` maps down to `ÿ`, and `İ` lowers to the two characters `i` followed by
the combining dot above, which is why the result is a `List Char`. -/
def lowerPyChar (c : Char) : List Char :=
  if decide ('A' ≤ c) && decide (c ≤ 'Z') then [Char.ofNat (c.toNat + 32)]
  else if 0xc0 ≤ c.val && c.val ≤ 0xde && c.val ≠ 0xd7 then [Char.ofNat (c.toNat + 32)]
  else if c.val = 0x130 then [Char.ofNat 0x69, Char.ofNat 0x307]
  else if c.val = 0x178 then [Char.ofNat 0xff]
  else if (0x100 ≤ c.toNat && c.toNat ≤ 0x136 && c.toNat % 2 = 0) ||
      (0x139 ≤ c.toNat && c.toNat ≤ 0x147 && c.toNat % 2 = 1) ||
      (0x14a ≤ c.toNat && c.toNat ≤ 0x176 && c.toNat % 2 = 0) ||
      (0x179 ≤ c.toNat && c.toNat ≤ 0x17d && c.toNat % 2 = 1) then
    [Char.ofNat (c.toNat + 1)]
  else [c]

/-- Python `str.lower` (`question.lower()`, `user_input.lower()`). -/
def pyLower (s : Str) : Str := s.flatMap lowerPyChar

/-- Python `str.strip()`: drop leading and trailing whitespace. -/
def pyStrip (s : Str) : Str :=
  ((s.dropWhile isPySpace).reverse.dropWhile isPySpace).reverse

/-- `t.endswith(('.', '!', '?', '…', ';', ':'))` — the sentence-terminal
punctuation test used both by the truncation heuristic and by the splice. -/
def endsWithFinalPunct (s : Str) : Bool :=
  match s.getLast? with
  | some c => c = '.' || c = '!' || c = '?' || c = '…' || c = ';' || c = ':'
  | none => false

/-- Accumulator-style tokenizer: `cur` holds the current word run reversed. -/
def wordTokensAux : List Char → List Char → List Str
  | [], cur => if cur.isEmpty then [] else [cur.reverse]
  | c :: rest, cur =>
    if isPyWordChar c then wordTokensAux rest (c :: cur)
    else if cur.isEmpty then wordTokensAux rest []
    else cur.reverse :: wordTokensAux rest []

/-- `re.findall(r"\w+", t, flags=re.UNICODE)`: the maximal runs of word
characters of `t`, in order. -/
def wordTokens (s : Str) : List Str := wordTokensAux s []

/-- `re.search(r"[A-Za-z]\d$|\d[A-Za-z]$", last)`: the token ends with an
ASCII letter followed by a digit, or a digit followed by an ASCII letter. -/
def trailingMixAscii (s : Str) : Bool :=
  match s.reverse with
  | d :: a :: _ =>
    (isAsciiLetter a && isPyDigit d) || (isPyDigit a && isAsciiLetter d)
  | _ => false

/-- The trailing-mix rule as the specification words it: the letter class is
the same Unicode-aware one the tokenizer uses, not the ASCII `[A-Za-z]`.
Stated only to be compared against the behaviour of the source function. -/
def specUnicodeTrailingMix (s : Str) : Bool :=
  match s.reverse with
  | d :: a :: _ =>
    (isPyLetter a && isPyDigit d) || (isPyDigit a && isPyLetter d)
  | _ => false

/-- Default of `config.get("min_word_length_for_truncation", 2)`. -/
def MIN_WORD_LENGTH_FOR_TRUNCATION : Nat := 2

/-- Default of `config.get("min_total_length_for_truncation", 40)`. -/
def MIN_TOTAL_LENGTH_FOR_TRUNCATION : Nat := 40

/-- `is_last_word_truncated(text, min_word_length, min_total_length)`:
the truncation-detection heuristic of `app.py` (lines 78–117). -/
def is_last_word_truncated (text : Str) (minWordLength minTotalLength : Nat) : Bool :=
  if text.isEmpty then false
  else
    let t := pyStrip text
    if endsWithFinalPunct t then false
    else if t.length < minTotalLength then false
    else
      match (wordTokens t).getLast? with
      | none => false
      | some last =>
        if last.length ≤ minWordLength then true
        else trailingMixAscii last

/-- A turn of the conversation log: `{"role": .., "name": .., "content": ..}`. -/
structure Turn where
  role : Str
  name : Str
  content : Str
deriving DecidableEq, Repr

/-- The knowledge base: a mapping from lower-cased question to answer,
modelled as an insertion-ordered association list (Python `dict`). -/
abbrev KB := List (Str × Str)

/-- Python `key in knowledge_base` / `knowledge_base[key]`. -/
def kbLookup : KB → Str → Option Str
  | [], _ => none
  | (k, v) :: rest, key => if k = key then some v else kbLookup rest key

/-- Python `knowledge_base[key] = val`: overwrite in place or append. -/
def kbInsert : KB → Str → Str → KB
  | [], key, val => [(key, val)]
  | (k, v) :: rest, key, val =>
    if k = key then (key, val) :: rest else (k, v) :: kbInsert rest key val

/-- The JSON body of a `POST /chat` request (absent fields are `none`). -/
structure ChatRequest where
  message : Option Str
  username : Option Str

/-- The JSON body of a `POST /teach` request (absent fields are `none`). -/
structure TeachRequest where
  question : Option Str
  answer : Option Str

/-- Outcome of the chat route: the 400 error body, or the 200 body
`{"response": answer, "source": source}`. -/
inductive ChatResp where
  | badRequest
  | ok (answer : Str) (source : Str)
deriving DecidableEq, Repr

/-- Full observable outcome of one chat request: the response, the
conversation log afterwards, whether `complete_last_word` was invoked,
and whether `save_history` was invoked. -/
structure ChatOutcome where
  resp : ChatResp
  hist : List Turn
  repairInvoked : Bool
  savedHistory : Bool
deriving DecidableEq, Repr

/-- Full observable outcome of one teach request: whether it was accepted
(`200`) or rejected (`400`), the knowledge base afterwards, and whether
`save_knowledge` was invoked. -/
structure TeachOutcome where
  accepted : Bool
  kb : KB
  savedKnowledge : Bool
deriving DecidableEq, Repr

/-- The assistant turn appended at the end of every successful chat. -/
def assistantTurn (answer : Str) : Turn :=
  ⟨"assistant".data, "Assistant".data, answer⟩

/-- The GENERATE stage of the chat route (lines 281–304): `generated` is the
text returned by `query_hf`, `repairResult` the value `complete_last_word`
would return when invoked. -/
def generateStage (hist1 : List Turn) (generated : Str) (repairResult : Option Str)
    (minWordLength minTotalLength : Nat) : ChatOutcome :=
  if "Erreur".data.isPrefixOf generated || "Désolé".data.isPrefixOf generated then
    ⟨ChatResp.ok generated "ai".data, hist1 ++ [assistantTurn generated], false, true⟩
  else if is_last_word_truncated generated minWordLength minTotalLength then
    match repairResult with
    | some extra =>
      if extra.isEmpty then
        ⟨ChatResp.ok generated "ai".data, hist1 ++ [assistantTurn generated], true, true⟩
      else
        let g1 := pyStrip (generated ++ extra)
        let g2 := if endsWithFinalPunct g1 then g1 else g1 ++ ['.']
        ⟨ChatResp.ok g2 "ai".data, hist1 ++ [assistantTurn g2], true, true⟩
    | none =>
      ⟨ChatResp.ok generated "ai".data, hist1 ++ [assistantTurn generated], true, true⟩
  else
    ⟨ChatResp.ok generated "ai".data, hist1 ++ [assistantTurn generated], false, true⟩

/-- The `/chat` route (lines 248–309).  `webResult` is the text
`search_serapi` would return, `genResult` the text `query_hf` would
return, `repairResult` the value `complete_last_word` would return. -/
def chatHandler (data : ChatRequest) (kb : KB) (hist : List Turn)
    (webResult genResult : Str) (repairResult : Option Str)
    (minWordLength minTotalLength : Nat) : ChatOutcome :=
  let user_input := pyStrip (data.message.getD [])
  let username := data.username.getD "Utilisateur".data
  if user_input.isEmpty then ⟨ChatResp.badRequest, hist, false, false⟩
  else
    let hist1 := hist ++ [⟨"user".data, username, user_input⟩]
    match kbLookup kb (pyLower user_input) with
    | some answer =>
      ⟨ChatResp.ok answer "exact".data, hist1 ++ [assistantTurn answer], false, true⟩
    | none =>
      if !webResult.isEmpty && !(pyStrip webResult).isEmpty &&
          !("Erreur".data.isPrefixOf webResult) then
        ⟨ChatResp.ok webResult "web".data, hist1 ++ [assistantTurn webResult], false, true⟩
      else
        generateStage hist1 genResult repairResult minWordLength minTotalLength

/-- The `/teach` route (lines 311–323). -/
def teachHandler (data : TeachRequest) (kb : KB) : TeachOutcome :=
  let question := pyStrip (data.question.getD [])
  let answer := pyStrip (data.answer.getD [])
  if question.isEmpty || answer.isEmpty then ⟨false, kb, false⟩
  else ⟨true, kbInsert kb (pyLower question) answer, true⟩

/-- Result of attempting to read a persisted store file at startup. -/
inductive ReadResult (α : Type) where
  | absent
  | unreadable
  | ok (v : α)

/-- Startup load of the conversation log (lines 47–53): guarded by
`os.path.exists` and a `try`/`except`, so every failure degrades to `[]`. -/
def loadHistory : ReadResult (List Turn) → List Turn
  | .absent => []
  | .unreadable => []
  | .ok v => v

/-- Startup load of the knowledge base (lines 55–59): an absent file gives
`{}`, but the read of an existing file has no `try`/`except`, so a read or
parse failure propagates as an exception (`Except.error`). -/
def loadKnowledge : ReadResult KB → Except Unit KB
  | .absent => .ok []
  | .unreadable => .error ()
  | .ok v => .ok v

/-- `"Le serveur Hugging Face met trop de temps à répondre."` (line 206). -/
def hfTimeoutMsg : Str := "Le serveur Hugging Face met trop de temps à répondre.".data

/-- `"Erreur lors de la génération de texte."` (line 196). -/
def hfApiErrorMsg : Str := "Erreur lors de la génération de texte.".data

/-- `"Erreur de connexion à Hugging Face."` (line 209). -/
def hfNetErrorMsg : Str := "Erreur de connexion à Hugging Face.".data

/-- `"Désolé, je n'ai pas pu générer de réponse."` (line 203). -/
def hfApologyMsg : Str := "Désolé, je n\x27ai pas pu générer de réponse.".data

/-- `"Une erreur est survenue lors du traitement."` (line 212). -/
def hfUnexpectedMsg : Str := "Une erreur est survenue lors du traitement.".data

/-! ### Helper lemmas -/

theorem isEmpty_false_of_ne {l : Str} (h : l ≠ []) : l.isEmpty = false := by
  cases l with
  | nil => exact absurd rfl h
  | cons c t => rfl

theorem lowerPyChar_ne_nil (c : Char) : lowerPyChar c ≠ [] := by
  unfold lowerPyChar
  repeat' split
  all_goals exact List.cons_ne_nil _ _

theorem pyLower_eq_nil_iff (s : Str) : pyLower s = [] ↔ s = [] := by
  constructor
  · intro h
    cases s with
    | nil => rfl
    | cons c t =>
      exfalso
      rw [pyLower, List.flatMap_cons] at h
      exact lowerPyChar_ne_nil c (List.append_eq_nil.mp h).1
  · intro h
    subst h
    rfl

theorem kbLookup_kbInsert_self (kb : KB) (k v : Str) :
    kbLookup (kbInsert kb k v) k = some v := by
  induction kb with
  | nil => simp [kbInsert, kbLookup]
  | cons hd t ih =>
    obtain ⟨k0, v0⟩ := hd
    by_cases hk : k0 = k
    · simp [kbInsert, hk, kbLookup]
    · simp [kbInsert, hk, kbLookup, ih]

theorem kbLookup_kbInsert_other (kb : KB) (k v key : Str) (h : key ≠ k) :
    kbLookup (kbInsert kb k v) key = kbLookup kb key := by
  induction kb with
  | nil => simp [kbInsert, kbLookup, Ne.symm h]
  | cons hd t ih =>
    obtain ⟨k0, v0⟩ := hd
    by_cases hk : k0 = k
    · subst hk
      simp [kbInsert, kbLookup, Ne.symm h]
    · by_cases hkey : k0 = key
      · subst hkey
        simp [kbInsert, hk, kbLookup]
      · simp [kbInsert, hk, kbLookup, hkey, ih]

theorem truncated_false_of_punct (text : Str) (minW minT : Nat)
    (h : endsWithFinalPunct (pyStrip text) = true) :
    is_last_word_truncated text minW minT = false := by
  unfold is_last_word_truncated
  by_cases he : text.isEmpty <;> simp [he, h]

theorem teachHandler_accepts (q a : Str) (kb : KB)
    (hq : pyStrip q ≠ []) (ha : pyStrip a ≠ []) :
    teachHandler ⟨some q, some a⟩ kb
      = ⟨true, kbInsert kb (pyLower (pyStrip q)) (pyStrip a), true⟩ := by
  simp [teachHandler, isEmpty_false_of_ne hq, isEmpty_false_of_ne ha]

theorem chat_cache_hit (m : Str) (uname : Option Str) (kb : KB) (hist : List Turn)
    (web gen : Str) (rep : Option Str) (minW minT : Nat) (ans : Str)
    (hm : pyStrip m ≠ [])
    (hkb : kbLookup kb (pyLower (pyStrip m)) = some ans) :
    (chatHandler ⟨some m, uname⟩ kb hist web gen rep minW minT).resp
      = ChatResp.ok ans "exact".data := by
  simp [chatHandler, isEmpty_false_of_ne hm, hkb]

theorem chat_generate_eq (m : Str) (uname : Option Str) (kb : KB) (hist : List Turn)
    (web gen : Str) (rep : Option Str) (minW minT : Nat)
    (hm : pyStrip m ≠ [])
    (hmiss : kbLookup kb (pyLower (pyStrip m)) = none)
    (hweb : pyStrip web = [] ∨ "Erreur".data.isPrefixOf web = true) :
    chatHandler ⟨some m, uname⟩ kb hist web gen rep minW minT
      = generateStage (hist ++ [⟨"user".data, uname.getD "Utilisateur".data, pyStrip m⟩])
          gen rep minW minT := by
  have hwebcond : (!web.isEmpty && !(pyStrip web).isEmpty &&
      !("Erreur".data.isPrefixOf web)) = false := by
    rcases hweb with h | h <;> simp [h]
  simp [chatHandler, isEmpty_false_of_ne hm, hmiss, hwebcond]

theorem generateStage_marker (hist1 : List Turn) (gen : Str) (rep : Option Str)
    (minW minT : Nat)
    (h : ("Erreur".data.isPrefixOf gen || "Désolé".data.isPrefixOf gen) = true) :
    generateStage hist1 gen rep minW minT
      = ⟨ChatResp.ok gen "ai".data, hist1 ++ [assistantTurn gen], false, true⟩ := by
  simp [generateStage, h]

theorem generateStage_not_truncated (hist1 : List Turn) (gen : Str) (rep : Option Str)
    (minW minT : Nat)
    (h2 : is_last_word_truncated gen minW minT = false) :
    generateStage hist1 gen rep minW minT
      = ⟨ChatResp.ok gen "ai".data, hist1 ++ [assistantTurn gen], false, true⟩ := by
  by_cases h1 : ("Erreur".data.isPrefixOf gen || "Désolé".data.isPrefixOf gen) = true
  · simp [generateStage, h1]
  · simp [generateStage, h1, h2]

/-! ### Claim theorems -/

/-- C1: a question taught via `teach` (question and answer non-empty after
trimming) is afterwards answered by `chat` from the knowledge store for any
message equal to it up to letter case (after trimming): the response is the
taught (trimmed) answer with provenance `exact`; it stays so after a later
teach on a different case-folded key, and a later teach on the same
case-folded key overwrites the entry. -/
theorem teach_then_chat_exact
    (q a m : Str) (uname : Option Str) (kb : KB) (hist : List Turn)
    (web gen : Str) (rep : Option Str) (minW minT : Nat)
    (hq : pyStrip q ≠ []) (ha : pyStrip a ≠ [])
    (hm : pyLower (pyStrip m) = pyLower (pyStrip q)) :
    (chatHandler ⟨some m, uname⟩ (teachHandler ⟨some q, some a⟩ kb).kb hist
        web gen rep minW minT).resp = ChatResp.ok (pyStrip a) "exact".data
    ∧ (∀ q2 a2, pyStrip q2 ≠ [] → pyStrip a2 ≠ [] →
        pyLower (pyStrip q2) = pyLower (pyStrip q) →
        (chatHandler ⟨some m, uname⟩
            (teachHandler ⟨some q2, some a2⟩ (teachHandler ⟨some q, some a⟩ kb).kb).kb
            hist web gen rep minW minT).resp = ChatResp.ok (pyStrip a2) "exact".data)
    ∧ (∀ q2 a2, pyStrip q2 ≠ [] → pyStrip a2 ≠ [] →
        pyLower (pyStrip q2) ≠ pyLower (pyStrip q) →
        (chatHandler ⟨some m, uname⟩
            (teachHandler ⟨some q2, some a2⟩ (teachHandler ⟨some q, some a⟩ kb).kb).kb
            hist web gen rep minW minT).resp = ChatResp.ok (pyStrip a) "exact".data) := by
  have hmne : pyStrip m ≠ [] := by
    intro he
    rw [he] at hm
    exact hq ((pyLower_eq_nil_iff (pyStrip q)).mp hm.symm)
  rw [teachHandler_accepts q a kb hq ha]
  refine ⟨?_, ?_, ?_⟩
  · apply chat_cache_hit _ _ _ _ _ _ _ _ _ _ hmne
    rw [hm]
    exact kbLookup_kbInsert_self kb _ _
  · intro q2 a2 h2q h2a h2key
    rw [teachHandler_accepts q2 a2 _ h2q h2a]
    apply chat_cache_hit _ _ _ _ _ _ _ _ _ _ hmne
    rw [hm, ← h2key]
    exact kbLookup_kbInsert_self _ _ _
  · intro q2 a2 h2q h2a h2key
    rw [teachHandler_accepts q2 a2 _ h2q h2a]
    apply chat_cache_hit _ _ _ _ _ _ _ _ _ _ hmne
    rw [hm]
    rw [kbLookup_kbInsert_other _ _ _ _ (Ne.symm h2key)]
    exact kbLookup_kbInsert_self kb _ _

/-- Witness for C1 at the concrete teach/chat pair of end-to-end scenario 1,
and at a pair whose letter cases differ through Latin Extended-A folding
(`Œ`/`œ`, `Š`/`š`). -/
theorem teach_then_chat_exact_witness :
    ((chatHandler ⟨some "La Terre Est Plate ?".data, none⟩
        (teachHandler ⟨some "La terre est plate ?".data,
            some "Non, la Terre est ronde.".data⟩ []).kb
        [] [] [] none 2 40).resp
      = ChatResp.ok (pyStrip "Non, la Terre est ronde.".data) "exact".data)
    ∧ ((chatHandler ⟨some "ŒUVRE de Šota ?".data, none⟩
        (teachHandler ⟨some "œuvre DE šota ?".data,
            some "Une belle œuvre.".data⟩ []).kb
        [] [] [] none 2 40).resp
      = ChatResp.ok (pyStrip "Une belle œuvre.".data) "exact".data) :=
  ⟨(teach_then_chat_exact "La terre est plate ?".data "Non, la Terre est ronde.".data
      "La Terre Est Plate ?".data none [] [] [] [] none 2 40
      (by decide) (by decide) (by decide)).1,
    (teach_then_chat_exact "œuvre DE šota ?".data "Une belle œuvre.".data
      "ŒUVRE de Šota ?".data none [] [] [] [] none 2 40
      (by decide) (by decide) (by decide)).1⟩

/-- C2: when the GENERATE stage receives one of the fixed error-marker or
apology strings of `query_hf` (in particular the timeout message), the
resolved answer is that string verbatim with source `ai`, and
`complete_last_word` is never invoked on it. -/
theorem generate_error_text_verbatim
    (m : Str) (uname : Option Str) (kb : KB) (hist : List Turn)
    (web gen : Str) (rep : Option Str) (minW minT : Nat)
    (hm : pyStrip m ≠ [])
    (hmiss : kbLookup kb (pyLower (pyStrip m)) = none)
    (hweb : pyStrip web = [] ∨ "Erreur".data.isPrefixOf web = true)
    (hgen : gen = hfApiErrorMsg ∨ gen = hfNetErrorMsg ∨ gen = hfApologyMsg ∨
        gen = hfTimeoutMsg ∨ gen = hfUnexpectedMsg) :
    (chatHandler ⟨some m, uname⟩ kb hist web gen rep minW minT).resp
        = ChatResp.ok gen "ai".data
    ∧ (chatHandler ⟨some m, uname⟩ kb hist web gen rep minW minT).repairInvoked
        = false := by
  rw [chat_generate_eq m uname kb hist web gen rep minW minT hm hmiss hweb]
  rcases hgen with h | h | h | h | h <;> subst h
  · rw [generateStage_marker _ _ _ _ _ (by decide)]
    exact ⟨rfl, rfl⟩
  · rw [generateStage_marker _ _ _ _ _ (by decide)]
    exact ⟨rfl, rfl⟩
  · rw [generateStage_marker _ _ _ _ _ (by decide)]
    exact ⟨rfl, rfl⟩
  · rw [generateStage_not_truncated _ _ _ _ _
      (truncated_false_of_punct _ _ _ (by decide))]
    exact ⟨rfl, rfl⟩
  · rw [generateStage_not_truncated _ _ _ _ _
      (truncated_false_of_punct _ _ _ (by decide))]
    exact ⟨rfl, rfl⟩

/-- Witness for C2: the generation client times out; the final answer is
the fixed timeout message, source `ai`, and the repair call never happens. -/
theorem generate_error_text_verbatim_witness :
    (chatHandler ⟨some "bonjour".data, none⟩ [] [] [] hfTimeoutMsg
        (some "xx".data) 2 40).resp = ChatResp.ok hfTimeoutMsg "ai".data
    ∧ (chatHandler ⟨some "bonjour".data, none⟩ [] [] [] hfTimeoutMsg
        (some "xx".data) 2 40).repairInvoked = false :=
  generate_error_text_verbatim "bonjour".data none [] [] [] hfTimeoutMsg
    (some "xx".data) 2 40 (by decide) rfl (Or.inl rfl)
    (Or.inr (Or.inr (Or.inr (Or.inl rfl))))

/-- The generated text of end-to-end scenario 3, cut off mid-word. -/
def abidjanPartial : Str := "Abidjan est la plus grande vi".data

/-- The repaired answer scenario 3 expects. -/
def abidjanFull : Str := "Abidjan est la plus grande ville.".data

/-- C3 counterexample: with the default thresholds (minimum word length 2,
minimum total length 40), the scenario-3 text has length 29 < 40, the
heuristic does not fire, the repair call is never made, and the finalized
answer is the unrepaired text — not the claimed
`"Abidjan est la plus grande ville."`. -/
theorem abidjan_scenario_default_refuted :
    (chatHandler ⟨some "capitale".data, none⟩ [] [] [] abidjanPartial
        (some "lle.".data) MIN_WORD_LENGTH_FOR_TRUNCATION
        MIN_TOTAL_LENGTH_FOR_TRUNCATION).resp
      = ChatResp.ok abidjanPartial "ai".data
    ∧ ChatResp.ok abidjanPartial "ai".data ≠ ChatResp.ok abidjanFull "ai".data
    ∧ abidjanPartial.length = 29 := by decide

/-- C3 as amended: under the default thresholds the scenario-3 text (length
29 < 40) is served unchanged with source `ai` and no repair call; the
claimed spliced answer `"Abidjan est la plus grande ville."` results only
when the configured minimum total length is at most 29 (shown at 29). -/
theorem abidjan_scenario_behavior :
    (chatHandler ⟨some "capitale".data, none⟩ [] [] [] abidjanPartial
        (some "lle.".data) MIN_WORD_LENGTH_FOR_TRUNCATION
        MIN_TOTAL_LENGTH_FOR_TRUNCATION).resp
      = ChatResp.ok abidjanPartial "ai".data
    ∧ (chatHandler ⟨some "capitale".data, none⟩ [] [] [] abidjanPartial
        (some "lle.".data) MIN_WORD_LENGTH_FOR_TRUNCATION
        MIN_TOTAL_LENGTH_FOR_TRUNCATION).repairInvoked = false
    ∧ (chatHandler ⟨some "capitale".data, none⟩ [] [] [] abidjanPartial
        (some "lle.".data) MIN_WORD_LENGTH_FOR_TRUNCATION 29).resp
      = ChatResp.ok abidjanFull "ai".data := by decide

/-- C4: any text whose trimmed form does not end in sentence-terminal
punctuation, is at least the minimum total length, has at least one word
token, and whose final token is no longer than the minimum word length, is
detected as truncated. -/
theorem truncation_true_short_last_token
    (text : Str) (minW minT : Nat) (last : Str)
    (h1 : endsWithFinalPunct (pyStrip text) = false)
    (h2 : minT ≤ (pyStrip text).length)
    (h3 : (wordTokens (pyStrip text)).getLast? = some last)
    (h4 : last.length ≤ minW) :
    is_last_word_truncated text minW minT = true := by
  have htext : text.isEmpty = false := by
    cases text with
    | nil => simp [pyStrip, wordTokens, wordTokensAux] at h3
    | cons c l => rfl
  have hlen : ¬ (pyStrip text).length < minT := Nat.not_lt.mpr h2
  unfold is_last_word_truncated
  simp [htext, h1, hlen, h3, h4]

/-- Witness for C4: 42-character unterminated text with final token `ij`. -/
theorem truncation_true_short_last_token_witness :
    is_last_word_truncated "aaaa bbbb cccc dddd eeee ffff gggg hhhh ij".data
      MIN_WORD_LENGTH_FOR_TRUNCATION MIN_TOTAL_LENGTH_FOR_TRUNCATION = true :=
  truncation_true_short_last_token _ _ _ "ij".data
    (by decide) (by decide) (by decide) (by decide)

/-- C5: any text whose trimmed form ends in `.`, `!`, `?`, `…`, `;` or `:`
is reported not truncated, whatever the thresholds and the length. -/
theorem truncation_false_terminal_punct (text : Str) (minW minT : Nat)
    (h : endsWithFinalPunct (pyStrip text) = true) :
    is_last_word_truncated text minW minT = false :=
  truncated_false_of_punct text minW minT h

/-- Witness for C5: a short period-terminated text. -/
theorem truncation_false_terminal_punct_witness :
    is_last_word_truncated "Salut.".data MIN_WORD_LENGTH_FOR_TRUNCATION
      MIN_TOTAL_LENGTH_FOR_TRUNCATION = false :=
  truncation_false_terminal_punct "Salut.".data _ _ (by decide)

/-- Unterminated 41-character text whose final token `caféé3` ends with a
digit preceded by a non-ASCII letter. -/
def mixUnicodeText : Str := "aaaa bbbb cccc dddd eeee ffff gggg caféé3".data

/-- C6 counterexample: the final token `caféé3` ends with a digit
immediately preceded by a letter in the Unicode-aware sense of the
tokenizer (`é`), all side conditions of the claim hold, yet
`is_last_word_truncated` returns `false`: the mix test uses the ASCII
class `[A-Za-z]`, not the tokenizer's letter class. -/
theorem truncation_mix_unicode_refuted :
    endsWithFinalPunct (pyStrip mixUnicodeText) = false
    ∧ MIN_TOTAL_LENGTH_FOR_TRUNCATION ≤ (pyStrip mixUnicodeText).length
    ∧ (wordTokens (pyStrip mixUnicodeText)).getLast? = some "caféé3".data
    ∧ MIN_WORD_LENGTH_FOR_TRUNCATION < ("caféé3".data).length
    ∧ specUnicodeTrailingMix "caféé3".data = true
    ∧ is_last_word_truncated mixUnicodeText MIN_WORD_LENGTH_FOR_TRUNCATION
        MIN_TOTAL_LENGTH_FOR_TRUNCATION = false := by decide

/-- C6 as amended: for unterminated, long-enough text whose final token is
longer than the minimum word length, the heuristic returns true exactly
when the final token ends in a single trailing alphanumeric transition with
the letter taken from the ASCII class `[A-Za-z]` of the mix regex — not
from the Unicode-aware letter class used to tokenize. -/
theorem truncation_mix_rule_ascii
    (text : Str) (minW minT : Nat) (last : Str)
    (h1 : endsWithFinalPunct (pyStrip text) = false)
    (h2 : minT ≤ (pyStrip text).length)
    (h3 : (wordTokens (pyStrip text)).getLast? = some last)
    (h4 : minW < last.length) :
    is_last_word_truncated text minW minT = trailingMixAscii last := by
  have htext : text.isEmpty = false := by
    cases text with
    | nil => simp [pyStrip, wordTokens, wordTokensAux] at h3
    | cons c l => rfl
  have hlen : ¬ (pyStrip text).length < minT := Nat.not_lt.mpr h2
  have hshort : ¬ last.length ≤ minW := Nat.not_le.mpr h4
  unfold is_last_word_truncated
  simp [htext, h1, hlen, h3, hshort]

/-- Witness for C6: final token `word3` ends in an ASCII letter–digit
transition, so the heuristic reports truncation. -/
theorem truncation_mix_rule_ascii_witness :
    is_last_word_truncated "aaaa bbbb cccc dddd eeee ffff gggg word3".data
        MIN_WORD_LENGTH_FOR_TRUNCATION MIN_TOTAL_LENGTH_FOR_TRUNCATION
      = trailingMixAscii "word3".data
    ∧ trailingMixAscii "word3".data = true :=
  ⟨truncation_mix_rule_ascii "aaaa bbbb cccc dddd eeee ffff gggg word3".data
      MIN_WORD_LENGTH_FOR_TRUNCATION MIN_TOTAL_LENGTH_FOR_TRUNCATION
      "word3".data (by decide) (by decide) (by decide) (by decide),
    by decide⟩

/-- C7: when truncation is detected but the repair yields no completion
(`complete_last_word` returns `None`, or the empty completion the route
treats as falsy), the finalized answer is exactly the original generated
text — in particular within "at most punctuation normalization" of it. -/
theorem repair_none_keeps_generated
    (m : Str) (uname : Option Str) (kb : KB) (hist : List Turn)
    (web gen : Str) (rep : Option Str) (minW minT : Nat)
    (hm : pyStrip m ≠ [])
    (hmiss : kbLookup kb (pyLower (pyStrip m)) = none)
    (hweb : pyStrip web = [] ∨ "Erreur".data.isPrefixOf web = true)
    (htr : is_last_word_truncated gen minW minT = true)
    (hrep : rep = none ∨ rep = some []) :
    (chatHandler ⟨some m, uname⟩ kb hist web gen rep minW minT).resp
      = ChatResp.ok gen "ai".data := by
  rw [chat_generate_eq m uname kb hist web gen rep minW minT hm hmiss hweb]
  by_cases h1 : ("Erreur".data.isPrefixOf gen || "Désolé".data.isPrefixOf gen) = true
  · rw [generateStage_marker _ _ _ _ _ h1]
  · rcases hrep with h | h <;> subst h <;> simp [generateStage, h1, htr]

/-- Witness for C7: truncated 42-character text, repair returns nothing. -/
theorem repair_none_keeps_generated_witness :
    (chatHandler ⟨some "bonjour".data, none⟩ [] []
        [] "aaaa bbbb cccc dddd eeee ffff gggg hhhh ij".data none 2 40).resp
      = ChatResp.ok "aaaa bbbb cccc dddd eeee ffff gggg hhhh ij".data "ai".data :=
  repair_none_keeps_generated "bonjour".data none [] []
    [] "aaaa bbbb cccc dddd eeee ffff gggg hhhh ij".data none 2 40
    (by decide) rfl (Or.inl rfl) (by decide) (Or.inl rfl)

/-- C8 counterexample: at startup an existing-but-unreadable knowledge file
is read without any exception handler, so the failure propagates — it is a
fatal startup error, not a degradation to an empty store. -/
theorem load_knowledge_unreadable_fatal :
    loadKnowledge ReadResult.unreadable = Except.error ()
    ∧ loadKnowledge ReadResult.unreadable ≠ Except.ok ([] : KB) :=
  ⟨rfl, fun h => Except.noConfusion h⟩

/-- C8 as amended: a failed read of the conversation log degrades to the
empty log (absent or unreadable alike), and an absent knowledge file
degrades to the empty store, but a read failure of an existing knowledge
file is an uncaught exception — a fatal startup error. -/
theorem startup_load_degradation :
    loadHistory ReadResult.absent = []
    ∧ loadHistory ReadResult.unreadable = []
    ∧ loadKnowledge ReadResult.absent = Except.ok ([] : KB)
    ∧ loadKnowledge ReadResult.unreadable = Except.error () :=
  ⟨rfl, rfl, rfl, rfl⟩

/-- C9: a teach request whose question or answer trims to empty (or is
absent) is rejected with the 400 validation error; the knowledge base is
returned unchanged and `save_knowledge` is not invoked. -/
theorem teach_empty_rejected (d : TeachRequest) (kb : KB)
    (h : pyStrip (d.question.getD []) = [] ∨ pyStrip (d.answer.getD []) = []) :
    teachHandler d kb = ⟨false, kb, false⟩ := by
  unfold teachHandler
  rcases h with h | h <;> simp [h]

/-- Witness for C9: whitespace-only question, non-empty answer. -/
theorem teach_empty_rejected_witness :
    teachHandler ⟨some "   ".data, some "x".data⟩ [("k".data, "v".data)]
      = ⟨false, [("k".data, "v".data)], false⟩ :=
  teach_empty_rejected _ _ (Or.inl (by decide))

/-- C10: a chat request whose message is absent, empty or whitespace-only
is rejected with the 400 validation error before any mutation: the
conversation log is unchanged, no repair call happens, and `save_history`
is not invoked. -/
theorem chat_empty_rejected (d : ChatRequest) (kb : KB) (hist : List Turn)
    (web gen : Str) (rep : Option Str) (minW minT : Nat)
    (h : pyStrip (d.message.getD []) = []) :
    chatHandler d kb hist web gen rep minW minT
      = ⟨ChatResp.badRequest, hist, false, false⟩ := by
  simp [chatHandler, h]

/-- Witness for C10: absent message field, non-empty starting log. -/
theorem chat_empty_rejected_witness :
    chatHandler ⟨none, none⟩ [] [⟨"user".data, "u".data, "salut".data⟩]
        [] [] none 2 40
      = ⟨ChatResp.badRequest, [⟨"user".data, "u".data, "salut".data⟩],
          false, false⟩ :=
  chat_empty_rejected _ _ _ _ _ _ _ _ (by decide)
